import Mathlib

/-!
Shallow embedding of the `/fetch` pagination service in `src/main.rs`.

Modelling conventions:
* `usize` is modelled as `Nat` bounded by `USIZE_MAX = 2^64 - 1` (64-bit target).
  Arithmetic follows Rust's checked (debug-profile) semantics: an addition or
  subtraction that leaves the `usize` range, and any division by zero, is a
  panic.  A panicking handler call is modelled as `none`; a normal return as
  `some (response, newState)`.
* `VecDeque<String>` is modelled as `List String`; `iter().skip(a).take(b)`
  is `(l.drop a).take b`.
* The handler reads only the `"n"` entry of the query map, so the query is
  modelled as `Option String` (the raw value of the `n` parameter, if present).
* `v.parse::<usize>()` is modelled by `parseUsize`: an optional leading `'+'`,
  then one or more ASCII digits, value at most `USIZE_MAX`.
-/

namespace SmsRpa

/-- Largest value of `usize` on the 64-bit target. -/
def USIZE_MAX : Nat := 2 ^ 64 - 1

/-- Rust `a + b` on `usize` under checked (debug) semantics: panics on overflow. -/
def checkedAdd (a b : Nat) : Option Nat :=
  if a + b ≤ USIZE_MAX then some (a + b) else none

/-- Rust `a - b` on `usize` under checked (debug) semantics: panics on underflow. -/
def checkedSub (a b : Nat) : Option Nat :=
  if b ≤ a then some (a - b) else none

/-- Rust `a / b` on `usize`: division by zero panics (in every build profile). -/
def checkedDiv (a b : Nat) : Option Nat :=
  if b = 0 then none else some (a / b)

/-- ASCII decimal digit test, as used by Rust's unsigned integer `FromStr`. -/
def isAsciiDigit (c : Char) : Bool := '0' ≤ c && c ≤ '9'

/-- Value of a list of ASCII digits read in base 10. -/
def digitsToNat (cs : List Char) : Nat :=
  cs.foldl (fun acc c => acc * 10 + (c.toNat - 48)) 0

/-- Model of `v.parse::<usize>().ok()` (line 67): optional leading `'+'`, then
one or more ASCII digits, and the value must fit in `usize`; anything else
(empty, sign `'-'`, other characters, whitespace, overflow) yields `none`. -/
def parseUsize (s : String) : Option Nat :=
  let cs := s.toList
  let body := match cs with
    | '+' :: rest => rest
    | _ => cs
  if body.isEmpty then none
  else if body.all isAsciiDigit then
    let v := digitsToNat body
    if v ≤ USIZE_MAX then some v else none
  else none

/-- Model of the Rust `ResponseData` struct (lines 18-23). -/
structure ResponseData where
  numbers : String
  message : String
  count : Nat
deriving DecidableEq

/-- Model of the Rust `AppState` struct (lines 25-31). -/
structure AppState where
  numbers : List String
  message : String
  start_index : Nat
  default_fetch_count : Nat
  test_number : String
deriving DecidableEq

/-- Effective page size (lines 65-68): the parsed value of the `n` parameter if
present and parseable as `usize`, else the configured default. -/
def effectiveN (reqN : Option String) (dflt : Nat) : Nat :=
  (reqN.bind parseUsize).getD dflt

/-- Body of `fetch_handler` (lines 61-110) once the effective page size `n` is
fixed.  `none` models a panic; `some (r, st2)` models `Ok(Json(r))` together
with the state left behind.  The bound intermediate values mirror, in source
order, lines 71 (`current_page`), 72 (`items_remaining`, a saturating
subtraction, hence plain `Nat` subtraction), 73 (`pages_remaining`), the early
exhausted return of lines 75-82, line 84 (`end_index`), lines 85-98 (the page
slice, the prepended test number, and the response), and the
`pages_remaining - 1` evaluated by the log line 103 before the cursor is
advanced at line 109. -/
def fetchCore (n : Nat) (st : AppState) : Option (ResponseData × AppState) := do
  let total_items := st.numbers.length
  let cp ← checkedDiv st.start_index n
  let _current_page ← checkedAdd cp 1
  let items_remaining := total_items - st.start_index
  let t1 ← checkedAdd items_remaining n
  let t2 ← checkedSub t1 1
  let pages_remaining ← checkedDiv t2 n
  if st.start_index ≥ st.numbers.length then
    return ({ numbers := "", message := "No more numbers", count := 0 }, st)
  else
    let s1 ← checkedAdd st.start_index n
    let end_index := min s1 st.numbers.length
    let page := (st.numbers.drop st.start_index).take n
    let tokens := st.test_number :: page
    let response : ResponseData :=
      { numbers := String.intercalate "," tokens
        message := st.message
        count := tokens.length }
    let _log ← checkedSub pages_remaining 1
    return (response, { st with start_index := end_index })

/-- Model of `fetch_handler` (lines 57-111): resolve the effective page size
from the optional `n` query parameter, then run the core. -/
def fetch_handler (reqN : Option String) (st : AppState) : Option (ResponseData × AppState) :=
  fetchCore (effectiveN reqN st.default_fetch_count) st

/-- State after one HTTP call: on a normal return the new state, on a panic the
state is left unmodified (the panic at lines 71/73/84/103 happens before the
cursor write at line 109). -/
def stepState (reqN : Option String) (st : AppState) : AppState :=
  match fetch_handler reqN st with
  | none => st
  | some (_, st2) => st2

/-- The list of states visited while serving a list of requests, starting with
the given state. -/
def runStates : List (Option String) → AppState → List AppState
  | [], st => [st]
  | r :: rs, st => st :: runStates rs (stepState r st)

/-- Model of `load_state` (lines 123-135): the cursor starts at 0. -/
def load_state (numbers : List String) (message : String)
    (default_fetch_count : Nat) (test_number : String) : AppState :=
  { numbers := numbers
    message := message
    start_index := 0
    default_fetch_count := default_fetch_count
    test_number := test_number }

/-! ### Helper lemmas about the checked operations -/

theorem checkedAdd_eq_some (a b : Nat) (h : a + b ≤ USIZE_MAX) :
    checkedAdd a b = some (a + b) := by
  simp [checkedAdd, h]

theorem checkedSub_eq_some (a b : Nat) (h : b ≤ a) :
    checkedSub a b = some (a - b) := by
  simp [checkedSub, h]

theorem checkedDiv_eq_some (a b : Nat) (h : b ≠ 0) :
    checkedDiv a b = some (a / b) := by
  simp [checkedDiv, h]

theorem checkedAdd_inv (a b c : Nat) (h : checkedAdd a b = some c) :
    a + b ≤ USIZE_MAX ∧ c = a + b := by
  unfold checkedAdd at h
  split at h
  · exact ⟨by assumption, (Option.some.injEq _ _ ▸ h).symm⟩
  · exact absurd h (by simp)

theorem checkedSub_inv (a b c : Nat) (h : checkedSub a b = some c) :
    b ≤ a ∧ c = a - b := by
  unfold checkedSub at h
  split at h
  · exact ⟨by assumption, (Option.some.injEq _ _ ▸ h).symm⟩
  · exact absurd h (by simp)

theorem checkedDiv_inv (a b c : Nat) (h : checkedDiv a b = some c) :
    b ≠ 0 ∧ c = a / b := by
  unfold checkedDiv at h
  split at h
  · exact absurd h (by simp)
  · exact ⟨by assumption, (Option.some.injEq _ _ ▸ h).symm⟩

/-- Evaluation of the core on a non-exhausted state, under the implicit
no-overflow preconditions of the checked arithmetic. -/
theorem fetchCore_active (n : Nat) (st : AppState)
    (hn : 1 ≤ n) (hs : st.start_index < st.numbers.length)
    (h1 : st.numbers.length - st.start_index + n ≤ USIZE_MAX)
    (h2 : st.start_index + n ≤ USIZE_MAX) :
    fetchCore n st = some
      ({ numbers := String.intercalate "," (st.test_number :: (st.numbers.drop st.start_index).take n)
         message := st.message
         count := min n (st.numbers.length - st.start_index) + 1 },
       { st with start_index := min (st.start_index + n) st.numbers.length }) := by
  have hn0 : n ≠ 0 := by omega
  have hcp : st.start_index / n + 1 ≤ USIZE_MAX := by
    have := Nat.div_le_self st.start_index n
    omega
  have hrem : 1 ≤ st.numbers.length - st.start_index + n := by omega
  have hpages : 1 ≤ (st.numbers.length - st.start_index + n - 1) / n := by
    rw [Nat.one_le_div_iff (by omega)]
    omega
  have hlt : ¬ (st.start_index ≥ st.numbers.length) := by omega
  simp only [fetchCore, checkedDiv_eq_some _ _ hn0, Option.bind_eq_bind, Option.some_bind,
    checkedAdd_eq_some _ _ hcp, checkedAdd_eq_some _ _ h1, checkedSub_eq_some _ _ hrem,
    checkedSub_eq_some _ _ hpages, checkedAdd_eq_some _ _ h2, if_neg hlt]
  simp [List.length_take, List.length_drop]

/-- Evaluation of the core on an exhausted state: the sentinel is returned and
the state is left unchanged, provided the effective page size is a nonzero
`usize` value and `start_index / n + 1` does not overflow. -/
theorem fetchCore_exhausted (n : Nat) (st : AppState)
    (hn : 1 ≤ n) (hnM : n ≤ USIZE_MAX)
    (hs : st.numbers.length ≤ st.start_index)
    (hmax : st.start_index < USIZE_MAX) :
    fetchCore n st =
      some ({ numbers := "", message := "No more numbers", count := 0 }, st) := by
  have hn0 : n ≠ 0 := by omega
  have hcp : st.start_index / n + 1 ≤ USIZE_MAX := by
    have := Nat.div_le_self st.start_index n
    omega
  have hrem0 : st.numbers.length - st.start_index = 0 := by omega
  have hge : st.start_index ≥ st.numbers.length := hs
  simp only [fetchCore, checkedDiv_eq_some _ _ hn0, Option.bind_eq_bind, Option.some_bind,
    checkedAdd_eq_some _ _ hcp, hrem0, Nat.zero_add, checkedAdd_eq_some 0 n (by omega),
    checkedSub_eq_some _ _ hn, if_pos hge, Option.pure_def]

/-- Inversion principle: any normal return of the core is either the exhausted
sentinel with the state unchanged, or a page of tokens with the cursor moved to
`min (start_index + n) len`; in both cases the page size was nonzero (a zero
page size panics at the division on line 71). -/
theorem fetchCore_inv (n : Nat) (st : AppState) (r : ResponseData) (st2 : AppState)
    (h : fetchCore n st = some (r, st2)) :
    1 ≤ n ∧
    ((st.numbers.length ≤ st.start_index ∧ st2 = st ∧
        r = { numbers := "", message := "No more numbers", count := 0 }) ∨
     (st.start_index < st.numbers.length ∧
        st2 = { st with start_index := min (st.start_index + n) st.numbers.length } ∧
        r = { numbers := String.intercalate ","
                (st.test_number :: (st.numbers.drop st.start_index).take n)
              message := st.message
              count := ((st.numbers.drop st.start_index).take n).length + 1 })) := by
  simp only [fetchCore, Option.bind_eq_bind, Option.pure_def] at h
  rw [Option.bind_eq_some] at h
  obtain ⟨cp, hdiv1, h⟩ := h
  rw [Option.bind_eq_some] at h
  obtain ⟨pg, hadd1, h⟩ := h
  rw [Option.bind_eq_some] at h
  obtain ⟨t1, hadd2, h⟩ := h
  rw [Option.bind_eq_some] at h
  obtain ⟨t2, hsub1, h⟩ := h
  rw [Option.bind_eq_some] at h
  obtain ⟨pr, hdiv2, h⟩ := h
  obtain ⟨hn0, -⟩ := checkedDiv_inv _ _ _ hdiv1
  split at h
  · -- exhausted branch
    simp only [Option.some.injEq, Prod.mk.injEq] at h
    refine ⟨by omega, Or.inl ⟨by omega, h.2.symm, h.1.symm⟩⟩
  · -- active branch
    rw [Option.bind_eq_some] at h
    obtain ⟨s1, hadd3, h⟩ := h
    rw [Option.bind_eq_some] at h
    obtain ⟨lg, hsub2, h⟩ := h
    obtain ⟨-, hs1⟩ := checkedAdd_inv _ _ _ hadd3
    subst hs1
    simp only [Option.some.injEq, Prod.mk.injEq] at h
    refine ⟨by omega, Or.inr ⟨by omega, h.2.symm, h.1.symm⟩⟩

theorem fetch_handler_eq (reqN : Option String) (st : AppState) :
    fetch_handler reqN st = fetchCore (effectiveN reqN st.default_fetch_count) st := rfl

/-- One serving step never moves the cursor backwards. -/
theorem stepState_mono (reqN : Option String) (st : AppState) :
    st.start_index ≤ (stepState reqN st).start_index := by
  rw [stepState]
  cases hfe : fetch_handler reqN st with
  | none => exact le_refl _
  | some p =>
    obtain ⟨r, st2⟩ := p
    rw [fetch_handler_eq] at hfe
    rcases fetchCore_inv _ _ _ _ hfe with ⟨hn, ⟨-, hst, -⟩ | ⟨hlt, hst, -⟩⟩
    · subst hst; exact le_refl _
    · subst hst
      simp only []
      omega

/-- One serving step changes no field but the cursor. -/
theorem stepState_frame (reqN : Option String) (st : AppState) :
    (stepState reqN st).numbers = st.numbers ∧
    (stepState reqN st).message = st.message ∧
    (stepState reqN st).test_number = st.test_number ∧
    (stepState reqN st).default_fetch_count = st.default_fetch_count := by
  rw [stepState]
  cases hfe : fetch_handler reqN st with
  | none => exact ⟨rfl, rfl, rfl, rfl⟩
  | some p =>
    obtain ⟨r, st2⟩ := p
    rw [fetch_handler_eq] at hfe
    rcases fetchCore_inv _ _ _ _ hfe with ⟨-, ⟨-, hst, -⟩ | ⟨-, hst, -⟩⟩ <;>
      subst hst <;> exact ⟨rfl, rfl, rfl, rfl⟩

/-- One serving step keeps the cursor within the bounds of the sequence. -/
theorem stepState_le_len (reqN : Option String) (st : AppState)
    (h : st.start_index ≤ st.numbers.length) :
    (stepState reqN st).start_index ≤ (stepState reqN st).numbers.length := by
  rw [stepState]
  cases hfe : fetch_handler reqN st with
  | none => exact h
  | some p =>
    obtain ⟨r, st2⟩ := p
    rw [fetch_handler_eq] at hfe
    rcases fetchCore_inv _ _ _ _ hfe with ⟨hn, ⟨-, hst, -⟩ | ⟨hlt, hst, -⟩⟩
    · subst hst; exact h
    · subst hst
      simp only []
      omega

theorem runStates_cons_shape (rs : List (Option String)) (st : AppState) :
    ∃ l, runStates rs st = st :: l := by
  cases rs <;> exact ⟨_, rfl⟩

/-- Along any run, the cursor is non-decreasing and stays within bounds. -/
theorem runStates_chain (rs : List (Option String)) (st : AppState)
    (h : st.start_index ≤ st.numbers.length) :
    List.Chain' (fun a b => a.start_index ≤ b.start_index) (runStates rs st) ∧
    ∀ s2 ∈ runStates rs st, s2.start_index ≤ s2.numbers.length := by
  induction rs generalizing st with
  | nil =>
    refine ⟨List.chain'_singleton st, ?_⟩
    intro s2 hs2
    simp only [runStates, List.mem_singleton] at hs2
    exact hs2 ▸ h
  | cons r rs ih =>
    obtain ⟨hc, hall⟩ := ih (stepState r st) (stepState_le_len r st h)
    obtain ⟨l, hl⟩ := runStates_cons_shape rs (stepState r st)
    constructor
    · rw [runStates, hl]
      exact List.chain'_cons.mpr ⟨stepState_mono r st, hl ▸ hc⟩
    · intro s2 hs2
      rw [runStates] at hs2
      rcases List.mem_cons.mp hs2 with h2 | h2
      · exact h2 ▸ h
      · exact hall s2 h2

/-! ### Claim theorems -/

/-- C1 (amended): for every state with `start_index < len` and every effective
page size `n ≥ 1`, provided the two checked sums of the handler do not
overflow `usize` (`items_remaining + n ≤ usize::MAX` and
`start_index + n ≤ usize::MAX`), one call returns the test number followed by
`numbers[start_index .. min(start_index+n, len)]` in order, joined by commas,
with `count = min(n, len - start_index) + 1`, and the cursor moves to
`min(start_index + n, len)`. -/
theorem C1_page_contract (reqN : Option String) (st : AppState)
    (hs : st.start_index < st.numbers.length)
    (hn : 1 ≤ effectiveN reqN st.default_fetch_count)
    (h1 : st.numbers.length - st.start_index + effectiveN reqN st.default_fetch_count ≤ USIZE_MAX)
    (h2 : st.start_index + effectiveN reqN st.default_fetch_count ≤ USIZE_MAX) :
    fetch_handler reqN st = some
      ({ numbers := String.intercalate "," (st.test_number ::
            (st.numbers.drop st.start_index).take (effectiveN reqN st.default_fetch_count))
         message := st.message
         count := min (effectiveN reqN st.default_fetch_count)
            (st.numbers.length - st.start_index) + 1 },
       { st with
          start_index :=
            min (st.start_index + effectiveN reqN st.default_fetch_count) st.numbers.length }) :=
  fetchCore_active _ st hn hs h1 h2

/-- C1 witness: one non-exhausted call on a concrete store. -/
theorem C1_witness :
    fetch_handler none (load_state ["a", "b", "c"] "m" 2 "T") =
      some ({ numbers := "T,a,b", message := "m", count := 3 },
        { numbers := ["a", "b", "c"], message := "m", start_index := 2,
          default_fetch_count := 2, test_number := "T" }) :=
  (C1_page_contract none (load_state ["a", "b", "c"] "m" 2 "T")
    (by decide) (by decide) (by decide) (by decide)).trans (by decide)

/-- C1 counterexample: `n = usize::MAX` is a valid positive effective page
size reachable from the query string, yet on a non-exhausted state the call
panics on checked-add overflow instead of returning a page. -/
theorem C1_counterexample :
    effectiveN (some "18446744073709551615") 2 = USIZE_MAX ∧
    (1 : Nat) < (["a", "b"] : List String).length ∧
    1 ≤ USIZE_MAX ∧
    fetch_handler (some "18446744073709551615")
      { numbers := ["a", "b"], message := "m", start_index := 1,
        default_fetch_count := 2, test_number := "T" } = none := by decide

/-- C2 (amended): on an exhausted state (`start_index ≥ len`), any call whose
effective page size is a nonzero `usize` value (for `n = "0"` the handler
instead panics with a division by zero at line 71) returns exactly the
sentinel `{numbers: "", message: "No more numbers", count: 0}` without
touching the token list and with the state returned unchanged, so every
subsequent such call behaves identically: exhaustion is terminal. -/
theorem C2_exhausted_terminal (reqN : Option String) (st : AppState)
    (hs : st.numbers.length ≤ st.start_index)
    (hn : 1 ≤ effectiveN reqN st.default_fetch_count)
    (hnM : effectiveN reqN st.default_fetch_count ≤ USIZE_MAX)
    (hmax : st.start_index < USIZE_MAX) :
    fetch_handler reqN st =
      some ({ numbers := "", message := "No more numbers", count := 0 }, st) :=
  fetchCore_exhausted _ st hn hnM hs hmax

/-- C2 witness: a concrete exhausted call. -/
theorem C2_witness :
    fetch_handler (some "5")
      { numbers := ["a"], message := "hello", start_index := 1,
        default_fetch_count := 2, test_number := "T" } =
      some ({ numbers := "", message := "No more numbers", count := 0 },
        { numbers := ["a"], message := "hello", start_index := 1,
          default_fetch_count := 2, test_number := "T" }) :=
  C2_exhausted_terminal (some "5") _ (by decide) (by decide) (by decide) (by decide)

/-- C2 counterexample: on an exhausted store, the request `n = "0"` does not
return the sentinel: `"0"` parses as `usize` 0 and the handler panics with a
division by zero at line 71, before the exhausted check. -/
theorem C2_counterexample :
    parseUsize "0" = some 0 ∧
    fetch_handler (some "0")
      { numbers := [], message := "m", start_index := 0,
        default_fetch_count := 2, test_number := "T" } = none := by decide

/-- C3 (confirmed): starting from a state with `start_index = 0`, along any
sequence of fetch calls the cursor is non-decreasing from each state to the
next and never exceeds the length of the token sequence. -/
theorem C3_cursor_monotone_and_bounded (rs : List (Option String)) (st0 : AppState)
    (h0 : st0.start_index = 0) :
    List.Chain' (fun a b => a.start_index ≤ b.start_index) (runStates rs st0) ∧
    ∀ s2 ∈ runStates rs st0, s2.start_index ≤ s2.numbers.length :=
  runStates_chain rs st0 (by omega)

/-- C3 witness: a concrete run of three requests. -/
theorem C3_witness :
    List.Chain' (fun a b => a.start_index ≤ b.start_index)
      (runStates [none, some "3", some "abc"] (load_state ["a", "b", "c"] "m" 2 "T")) ∧
    ∀ s2 ∈ runStates [none, some "3", some "abc"] (load_state ["a", "b", "c"] "m" 2 "T"),
      s2.start_index ≤ s2.numbers.length :=
  C3_cursor_monotone_and_bounded [none, some "3", some "abc"]
    (load_state ["a", "b", "c"] "m" 2 "T") rfl

/-- C4 (amended): with numbers `["a","b","c","d","e"]`, default 2, test
number `"T"` and any stored message: the first call (no `n`) returns
`numbers="T,a,b"`, `count=3` and leaves `start_index=2`; the second call
(`n=3`) returns `numbers="T,c,d,e"`, `count=4` and leaves `start_index=5`;
the third call returns the exhausted sentinel for any `n` whose effective
page size is a nonzero `usize` value (for `n="0"` the third call instead
panics with a division by zero). -/
theorem C4_scenario (msg : String) (reqN : Option String)
    (hn1 : 1 ≤ effectiveN reqN 2) (hn2 : effectiveN reqN 2 ≤ USIZE_MAX) :
    (∃ r1, fetch_handler none
        { numbers := ["a", "b", "c", "d", "e"], message := msg, start_index := 0,
          default_fetch_count := 2, test_number := "T" } =
        some (r1,
          { numbers := ["a", "b", "c", "d", "e"], message := msg, start_index := 2,
            default_fetch_count := 2, test_number := "T" }) ∧
        r1.numbers = "T,a,b" ∧ r1.count = 3) ∧
    (∃ r2, fetch_handler (some "3")
        { numbers := ["a", "b", "c", "d", "e"], message := msg, start_index := 2,
          default_fetch_count := 2, test_number := "T" } =
        some (r2,
          { numbers := ["a", "b", "c", "d", "e"], message := msg, start_index := 5,
            default_fetch_count := 2, test_number := "T" }) ∧
        r2.numbers = "T,c,d,e" ∧ r2.count = 4) ∧
    fetch_handler reqN
        { numbers := ["a", "b", "c", "d", "e"], message := msg, start_index := 5,
          default_fetch_count := 2, test_number := "T" } =
      some ({ numbers := "", message := "No more numbers", count := 0 },
        { numbers := ["a", "b", "c", "d", "e"], message := msg, start_index := 5,
          default_fetch_count := 2, test_number := "T" }) := by
  have hc1 := fetchCore_active 2
    { numbers := ["a", "b", "c", "d", "e"], message := msg, start_index := 0,
      default_fetch_count := 2, test_number := "T" }
    (by norm_num) (by norm_num) (by norm_num [USIZE_MAX]) (by norm_num [USIZE_MAX])
  have hc2 := fetchCore_active 3
    { numbers := ["a", "b", "c", "d", "e"], message := msg, start_index := 2,
      default_fetch_count := 2, test_number := "T" }
    (by norm_num) (by norm_num) (by norm_num [USIZE_MAX]) (by norm_num [USIZE_MAX])
  have hc3 := fetchCore_exhausted (effectiveN reqN 2)
    { numbers := ["a", "b", "c", "d", "e"], message := msg, start_index := 5,
      default_fetch_count := 2, test_number := "T" }
    hn1 hn2 (by norm_num) (by norm_num [USIZE_MAX])
  exact ⟨⟨_, hc1, rfl, rfl⟩, ⟨_, hc2, rfl, rfl⟩, hc3⟩

/-- C4 witness: the scenario run with a concrete message and a concrete third
request. -/
theorem C4_witness :
    (∃ r1, fetch_handler none
        { numbers := ["a", "b", "c", "d", "e"], message := "m", start_index := 0,
          default_fetch_count := 2, test_number := "T" } =
        some (r1,
          { numbers := ["a", "b", "c", "d", "e"], message := "m", start_index := 2,
            default_fetch_count := 2, test_number := "T" }) ∧
        r1.numbers = "T,a,b" ∧ r1.count = 3) ∧
    (∃ r2, fetch_handler (some "3")
        { numbers := ["a", "b", "c", "d", "e"], message := "m", start_index := 2,
          default_fetch_count := 2, test_number := "T" } =
        some (r2,
          { numbers := ["a", "b", "c", "d", "e"], message := "m", start_index := 5,
            default_fetch_count := 2, test_number := "T" }) ∧
        r2.numbers = "T,c,d,e" ∧ r2.count = 4) ∧
    fetch_handler (some "7")
        { numbers := ["a", "b", "c", "d", "e"], message := "m", start_index := 5,
          default_fetch_count := 2, test_number := "T" } =
      some ({ numbers := "", message := "No more numbers", count := 0 },
        { numbers := ["a", "b", "c", "d", "e"], message := "m", start_index := 5,
          default_fetch_count := 2, test_number := "T" }) :=
  C4_scenario "m" (some "7") (by decide) (by decide)

/-- C4 counterexample: the first two calls of the scenario reach
`start_index = 5` as claimed, but the third call with `n = "0"` (an instance
of "any n") panics with a division by zero instead of returning the
sentinel. -/
theorem C4_counterexample :
    fetch_handler none
        { numbers := ["a", "b", "c", "d", "e"], message := "m", start_index := 0,
          default_fetch_count := 2, test_number := "T" } =
      some ({ numbers := "T,a,b", message := "m", count := 3 },
        { numbers := ["a", "b", "c", "d", "e"], message := "m", start_index := 2,
          default_fetch_count := 2, test_number := "T" }) ∧
    fetch_handler (some "3")
        { numbers := ["a", "b", "c", "d", "e"], message := "m", start_index := 2,
          default_fetch_count := 2, test_number := "T" } =
      some ({ numbers := "T,c,d,e", message := "m", count := 4 },
        { numbers := ["a", "b", "c", "d", "e"], message := "m", start_index := 5,
          default_fetch_count := 2, test_number := "T" }) ∧
    fetch_handler (some "0")
        { numbers := ["a", "b", "c", "d", "e"], message := "m", start_index := 5,
          default_fetch_count := 2, test_number := "T" } = none := by decide

/-- C5 (amended): the effective page size is the requested `n` exactly when
the parameter is present and parses as a `usize` — including `"0"`, which is
honored as page size 0 rather than rejected (and then panics on the division
at line 71); only an absent, malformed, negative, or out-of-range parameter
falls back to the configured default, in which case the call behaves
identically to a call with no `n`. -/
theorem C5_effective_page_size (st : AppState) (v : String) :
    (∀ k, parseUsize v = some k → fetch_handler (some v) st = fetchCore k st) ∧
    (parseUsize v = none → fetch_handler (some v) st = fetch_handler none st) ∧
    fetch_handler none st = fetchCore st.default_fetch_count st ∧
    parseUsize "abc" = none ∧ parseUsize "-5" = none ∧
    parseUsize "18446744073709551616" = none ∧ parseUsize "0" = some 0 := by
  refine ⟨?_, ?_, rfl, by decide, by decide, by decide, by decide⟩
  · intro k hk
    rw [fetch_handler_eq]
    simp [effectiveN, hk]
  · intro hk
    rw [fetch_handler_eq, fetch_handler_eq]
    simp [effectiveN, hk]

/-- C5 witness: a parsed positive `n` is honored on a concrete store. -/
theorem C5_witness :
    fetch_handler (some "7")
      { numbers := ["a"], message := "m", start_index := 0,
        default_fetch_count := 1, test_number := "T" } =
    fetchCore 7
      { numbers := ["a"], message := "m", start_index := 0,
        default_fetch_count := 1, test_number := "T" } :=
  (C5_effective_page_size
    { numbers := ["a"], message := "m", start_index := 0,
      default_fetch_count := 1, test_number := "T" } "7").1 7 (by decide)

/-- C5 counterexample: `n = "0"` parses as `usize` 0, so the handler does not
fall back to the default: the no-`n` call returns a page while the `n = "0"`
call panics with a division by zero. -/
theorem C5_counterexample :
    parseUsize "0" = some 0 ∧
    fetch_handler (some "0")
      { numbers := ["a"], message := "m", start_index := 0,
        default_fetch_count := 1, test_number := "T" } = none ∧
    fetch_handler none
      { numbers := ["a"], message := "m", start_index := 0,
        default_fetch_count := 1, test_number := "T" } =
      some ({ numbers := "T,a", message := "m", count := 2 },
        { numbers := ["a"], message := "m", start_index := 1,
          default_fetch_count := 1, test_number := "T" }) := by decide

/-- C6 (amended): for every state and request whose effective page size is a
nonzero `usize` and whose checked sums do not overflow
(`items_remaining + n ≤ usize::MAX` and `start_index + n ≤ usize::MAX`), the
handler terminates normally and produces the 200 JSON response; for `n = "0"`
it instead panics with a division by zero at line 71, and the
overflow cases panic in a checked build. -/
theorem C6_always_ok (reqN : Option String) (st : AppState)
    (hn : 1 ≤ effectiveN reqN st.default_fetch_count)
    (h1 : st.numbers.length - st.start_index + effectiveN reqN st.default_fetch_count ≤ USIZE_MAX)
    (h2 : st.start_index + effectiveN reqN st.default_fetch_count ≤ USIZE_MAX) :
    ∃ r st2, fetch_handler reqN st = some (r, st2) := by
  by_cases hs : st.start_index < st.numbers.length
  · exact ⟨_, _, fetchCore_active _ st hn hs h1 h2⟩
  · have hrem : st.numbers.length - st.start_index = 0 := by omega
    refine ⟨_, _, fetchCore_exhausted _ st hn (by omega) (by omega) (by omega)⟩

/-- C6 witness: a malformed `n` still yields a normal 200 response. -/
theorem C6_witness :
    ∃ r st2, fetch_handler (some "abc")
      { numbers := ["a"], message := "m", start_index := 0,
        default_fetch_count := 3, test_number := "T" } = some (r, st2) :=
  C6_always_ok (some "abc") _ (by decide) (by decide) (by decide)

/-- C6 counterexample: the request `n = "0"` makes the handler panic with a
division by zero at line 71, so not every request on this path terminates
normally with a 200 response. -/
theorem C6_counterexample :
    fetch_handler (some "0")
      { numbers := ["a", "b"], message := "m", start_index := 0,
        default_fetch_count := 2, test_number := "T" } = none := by decide

/-- C7 (amended): every normal response from a non-exhausted state echoes the
message loaded at startup; exhausted responses instead carry the fixed
literal `"No more numbers"`, not the stored message. -/
theorem C7_message_field (reqN : Option String) (st : AppState) (r : ResponseData)
    (st2 : AppState) (h : fetch_handler reqN st = some (r, st2)) :
    (st.start_index < st.numbers.length → r.message = st.message) ∧
    (st.numbers.length ≤ st.start_index → r.message = "No more numbers") := by
  rw [fetch_handler_eq] at h
  rcases fetchCore_inv _ _ _ _ h with ⟨-, ⟨hge, -, hr⟩ | ⟨hlt, -, hr⟩⟩
  · subst hr
    exact ⟨fun hc => absurd hc (by omega), fun _ => rfl⟩
  · subst hr
    exact ⟨fun _ => rfl, fun hc => absurd hc (by omega)⟩

/-- C7 witness: the message field of a concrete non-exhausted call. -/
theorem C7_witness :
    ((0 : Nat) < (["a"] : List String).length →
      ({ numbers := "T,a", message := "m", count := 2 } : ResponseData).message = "m") ∧
    ((["a"] : List String).length ≤ (0 : Nat) →
      ({ numbers := "T,a", message := "m", count := 2 } : ResponseData).message =
        "No more numbers") :=
  C7_message_field none
    { numbers := ["a"], message := "m", start_index := 0,
      default_fetch_count := 1, test_number := "T" }
    { numbers := "T,a", message := "m", count := 2 }
    { numbers := ["a"], message := "m", start_index := 1,
      default_fetch_count := 1, test_number := "T" } (by decide)

/-- C7 counterexample: on an exhausted store whose loaded message is
`"hello"`, the response message is the literal `"No more numbers"`, so the
stored message is not echoed in every response. -/
theorem C7_counterexample :
    fetch_handler none
      { numbers := [], message := "hello", start_index := 0,
        default_fetch_count := 2, test_number := "T" } =
      some ({ numbers := "", message := "No more numbers", count := 0 },
        { numbers := [], message := "hello", start_index := 0,
          default_fetch_count := 2, test_number := "T" }) ∧
    "No more numbers" ≠ "hello" := by decide

/-- C8 (amended): from a state that is not exhausted, any call that returns
normally strictly advances the cursor, so the two pages served by repeating
an identical request cover disjoint index ranges of the sequence; the two
response bodies themselves can nevertheless be byte-identical when the
underlying tokens repeat. -/
theorem C8_strict_advance (reqN : Option String) (st : AppState) (r : ResponseData)
    (st2 : AppState) (hs : st.start_index < st.numbers.length)
    (h : fetch_handler reqN st = some (r, st2)) :
    st.start_index < st2.start_index := by
  rw [fetch_handler_eq] at h
  rcases fetchCore_inv _ _ _ _ h with ⟨hn, ⟨hge, -, -⟩ | ⟨-, hst, -⟩⟩
  · omega
  · subst hst
    simp only []
    omega

/-- C8 witness: a concrete non-exhausted call advances the cursor. -/
theorem C8_witness :
    ({ numbers := ["x", "x"], message := "m", start_index := 0,
       default_fetch_count := 1, test_number := "T" } : AppState).start_index <
    ({ numbers := ["x", "x"], message := "m", start_index := 1,
       default_fetch_count := 1, test_number := "T" } : AppState).start_index :=
  C8_strict_advance none
    { numbers := ["x", "x"], message := "m", start_index := 0,
      default_fetch_count := 1, test_number := "T" }
    { numbers := "T,x", message := "m", count := 2 }
    { numbers := ["x", "x"], message := "m", start_index := 1,
      default_fetch_count := 1, test_number := "T" } (by decide) (by decide)

/-- C8 counterexample: with repeated tokens (`["x","x"]`, page size 1) the
same request issued twice from a non-exhausted state returns the same
response `{numbers: "T,x", count: 2}` twice, even though the cursor
advanced. -/
theorem C8_counterexample :
    (0 : Nat) < (["x", "x"] : List String).length ∧
    fetch_handler none
      { numbers := ["x", "x"], message := "m", start_index := 0,
        default_fetch_count := 1, test_number := "T" } =
      some ({ numbers := "T,x", message := "m", count := 2 },
        { numbers := ["x", "x"], message := "m", start_index := 1,
          default_fetch_count := 1, test_number := "T" }) ∧
    fetch_handler none
      { numbers := ["x", "x"], message := "m", start_index := 1,
        default_fetch_count := 1, test_number := "T" } =
      some ({ numbers := "T,x", message := "m", count := 2 },
        { numbers := ["x", "x"], message := "m", start_index := 2,
          default_fetch_count := 1, test_number := "T" }) := by decide

/-- C9 (confirmed): every call — normal return or panic — leaves the token
sequence, the message, the test number and the default page size unchanged;
the cursor is the only state field a call may modify. -/
theorem C9_frame_preserved (reqN : Option String) (st : AppState) :
    (stepState reqN st).numbers = st.numbers ∧
    (stepState reqN st).message = st.message ∧
    (stepState reqN st).test_number = st.test_number ∧
    (stepState reqN st).default_fetch_count = st.default_fetch_count :=
  stepState_frame reqN st

/-- C10 (amended): the handler's checked sums at lines 73 and 84 succeed and
the cursor lands on `min(start_index + n, len)` for every non-exhausted state
and positive `n` with `items_remaining + n ≤ usize::MAX` (the bound
`items_remaining + n - 1 ≤ usize::MAX` of the claim is one too weak: the code
adds before subtracting) and `start_index + n ≤ usize::MAX`; and for some
valid positive `n` — `n = usize::MAX` with `start_index ≥ 1` — the additions
overflow `usize`, so arbitrarily large requested `n` is not supported. -/
theorem C10_checked_arithmetic :
    (∀ (n : Nat) (st : AppState),
        st.start_index < st.numbers.length → 1 ≤ n →
        st.numbers.length - st.start_index + n ≤ USIZE_MAX →
        st.start_index + n ≤ USIZE_MAX →
        ∃ r, fetchCore n st =
          some (r, { st with start_index := min (st.start_index + n) st.numbers.length })) ∧
    fetchCore USIZE_MAX
      { numbers := ["a", "b"], message := "m", start_index := 1,
        default_fetch_count := 2, test_number := "T" } = none := by
  refine ⟨fun n st hs hn h1 h2 => ⟨_, fetchCore_active n st hn hs h1 h2⟩, by decide⟩

/-- C10 witness: the no-overflow bound applied at a concrete input. -/
theorem C10_witness :
    ∃ r, fetchCore 2
      { numbers := ["a", "b", "c"], message := "m", start_index := 0,
        default_fetch_count := 2, test_number := "T" } =
      some (r,
        { numbers := ["a", "b", "c"], message := "m", start_index := 2,
          default_fetch_count := 2, test_number := "T" }) :=
  C10_checked_arithmetic.1 2
    { numbers := ["a", "b", "c"], message := "m", start_index := 0,
      default_fetch_count := 2, test_number := "T" }
    (by decide) (by decide) (by decide) (by decide)

/-- C10 counterexample: the claim's stated precondition
`items_remaining + n - 1 ≤ usize::MAX` (together with
`start_index + n ≤ usize::MAX`) is satisfied at `items_remaining = 1`,
`n = usize::MAX`, `start_index = 0`, yet the sum at line 73 still overflows
and the call panics instead of computing `end_index`. -/
theorem C10_counterexample :
    (0 : Nat) < (["a"] : List String).length ∧
    1 ≤ USIZE_MAX ∧
    (["a"] : List String).length - 0 + USIZE_MAX - 1 ≤ USIZE_MAX ∧
    0 + USIZE_MAX ≤ USIZE_MAX ∧
    fetchCore USIZE_MAX
      { numbers := ["a"], message := "m", start_index := 0,
        default_fetch_count := 2, test_number := "T" } = none := by decide

end SmsRpa
